import Mathlib

/-!
# Verification of the sherlock-homes ingestion-to-insight pipeline

A shallow embedding, in Lean 4, of the core algorithms of the
sherlock-homes repository, together with theorems settling the spec's
claims about them.

Modelling conventions:
* Python `float` values are modelled as `ℚ` (exact arithmetic).
* Python `None` / optional dict keys are modelled with `Option`.
* SHA-256 content hashes are modelled by the hashed content in the
  normal form the code feeds to the hash (an ideal, collision-free
  hash); hash equality then coincides with equality of the normalized
  content, and Python truthiness of the hex string (`""` for empty
  input) is modelled by `Option`.
* Python's `round` (banker's rounding) is modelled exactly by
  `roundHalfEven` below.
-/

namespace SherlockHomes

/-- Python's `round` on a number with no `ndigits`: round half to even. -/
def roundHalfEven (q : ℚ) : ℤ :=
  let f := ⌊q⌋
  let r := q - f
  if r < 1/2 then f
  else if 1/2 < r then f + 1
  else if f % 2 = 0 then f else f + 1

/-- Python's `round(q, 3)`: round half to even at the third decimal. -/
def pythonRound3 (q : ℚ) : ℚ :=
  (roundHalfEven (q * 1000) : ℚ) / 1000

namespace Persistence

/-!
## Change-Detection Engine (`app/services/persistence.py`)

The mutable subset of a listing that feeds snapshots, the snapshot
record, the snapshot hash and `_build_events`, translated from
`app/services/persistence.py` (and `compute_photos_hash` from
`app/services/visual_scoring.py`).
-/

/-- The snapshot-relevant fields of a listing record handed to
`upsert_listings`. -/
structure ListingFields where
  price : Option ℚ
  listing_status : Option String
  days_on_market : Option ℤ
  photos : List String
  description : Option String
deriving DecidableEq, Repr

/-- `_normalize_price`: `None` stays `None`; a numeric value is kept as a
float (exact on the `ℚ` model). -/
def normalize_price (value : Option ℚ) : Option ℚ := value

/-- `_normalize_status`: falsy input gives `None`, otherwise
`value.strip().lower()`. -/
def normalize_status (value : Option String) : Option String :=
  match value with
  | none => none
  | some s => if s = "" then none else some s.trim.toLower

/-- `_hash_text`: falsy text hashes to the falsy string `""` (here `none`);
otherwise SHA-256 of the whitespace-normalized text, modelled by the list
of whitespace-separated words (`" ".join(text.split())`). -/
def hash_text (text : Option String) : Option (List String) :=
  match text with
  | none => none
  | some s =>
      if s = "" then none
      else some ((s.split Char.isWhitespace).filter (· ≠ ""))

/-- `compute_photos_hash` (visual_scoring.py): `""` (falsy, here `none`)
for an empty photo list, otherwise SHA-256 of the sorted URL list,
modelled by the sorted URL list itself. -/
def compute_photos_hash (photos : List String) : Option (List String) :=
  if photos = [] then none
  else some (photos.insertionSort (fun a b : String => a ≤ b))

/-- `snapshot_data` as built by `_build_snapshot`. -/
structure Snapshot where
  price : Option ℚ
  listing_status : Option String
  days_on_market : Option ℤ
  photos_hash : Option (List String)
  description_hash : Option (List String)
deriving DecidableEq, Repr

/-- `_build_snapshot`. -/
def build_snapshot (l : ListingFields) : Snapshot :=
  { price := normalize_price l.price
    listing_status := normalize_status l.listing_status
    days_on_market := l.days_on_market
    photos_hash := compute_photos_hash l.photos
    description_hash := hash_text l.description }

/-- The basis of `_snapshot_hash`: everything in the snapshot except
`days_on_market`. -/
structure SnapshotBasis where
  price : Option ℚ
  listing_status : Option String
  photos_hash : Option (List String)
  description_hash : Option (List String)
deriving DecidableEq, Repr

/-- `_snapshot_hash`: SHA-256 of the canonical JSON encoding of the four
basis fields, modelled by the basis record itself (ideal hash). -/
def snapshot_hash (s : Snapshot) : SnapshotBasis :=
  { price := s.price
    listing_status := s.listing_status
    photos_hash := s.photos_hash
    description_hash := s.description_hash }

/-- A `ListingEvent` row: the event type with its `old_value`/`new_value`
and `details` payloads. -/
inductive Event where
  | new_listing (price : Option ℚ) (listing_status : Option String)
  | price_drop (oldPrice newPrice amount : ℚ) (percent : Option ℚ)
  | price_increase (oldPrice newPrice amount : ℚ)
  | back_on_market (oldStatus : Option String) (newStatus : String)
  | status_change (oldStatus : Option String) (newStatus : String)
  | photo_change (oldHash newHash : List String)
  | description_change (oldHash newHash : List String)
deriving DecidableEq, Repr

/-- Is this a status-type event (`status_change` or `back_on_market`)? -/
def Event.isStatusEvent : Event → Bool
  | .back_on_market _ _ => true
  | .status_change _ _ => true
  | _ => false

/-- Is this a price-type event (`price_drop` or `price_increase`)? -/
def Event.isPriceEvent : Event → Bool
  | .price_drop _ _ _ _ => true
  | .price_increase _ _ _ => true
  | _ => false

/-- The price clause of `_build_events` (persistence.py lines 96-121). -/
def price_events (o n : Snapshot) : List Event :=
  match o.price, n.price with
  | some op, some np =>
      if op ≠ np then
        if np - op < 0 then
          [Event.price_drop op np |np - op|
            (if op = 0 then none else some (|np - op| / op * 100))]
        else
          [Event.price_increase op np (np - op)]
      else []
  | _, _ => []

/-- The status clause of `_build_events` (persistence.py lines 123-143). -/
def status_events (o n : Snapshot) : List Event :=
  match n.listing_status with
  | none => []
  | some ns =>
      if ns ≠ "" ∧ o.listing_status ≠ some ns then
        if ns = "active" ∧
            (o.listing_status = some "pending" ∨
             o.listing_status = some "contingent" ∨
             o.listing_status = some "sold") then
          [Event.back_on_market o.listing_status ns]
        else
          [Event.status_change o.listing_status ns]
      else []

/-- The photo clause of `_build_events` (persistence.py lines 145-155). -/
def photo_events (o n : Snapshot) : List Event :=
  match o.photos_hash, n.photos_hash with
  | some a, some b => if a ≠ b then [Event.photo_change a b] else []
  | _, _ => []

/-- The description clause of `_build_events` (persistence.py
lines 157-167). -/
def description_events (o n : Snapshot) : List Event :=
  match o.description_hash, n.description_hash with
  | some a, some b => if a ≠ b then [Event.description_change a b] else []
  | _, _ => []

/-- `_build_events`: with no prior snapshot, a single `new_listing`
event; otherwise the price, status, photo and description diffs, in that
order. -/
def build_events (oldSnap : Option Snapshot) (newSnap : Snapshot) :
    List Event :=
  match oldSnap with
  | none => [Event.new_listing newSnap.price newSnap.listing_status]
  | some o =>
      price_events o newSnap ++ status_events o newSnap ++
        photo_events o newSnap ++ description_events o newSnap

/-- The per-listing persistent state touched by `upsert_listings`: the
listing's mutable fields (if the listing exists), its snapshot history
(most recent first) and its event log (in creation order). -/
structure ListingState where
  fields : Option ListingFields
  snapshots : List Snapshot
  events : List Event
deriving DecidableEq, Repr

/-- The state before a listing is first ingested. -/
def emptyListingState : ListingState :=
  { fields := none, snapshots := [], events := [] }

/-- The field merge `upsert_listings` performs on an existing listing
(lines 254-265): every supplied field overwrites the stored one, except
that an empty `photos` list (falsy) leaves the stored photos unchanged. -/
def merge_fields (data existing : ListingFields) : ListingFields :=
  { price := data.price
    listing_status := data.listing_status
    days_on_market := data.days_on_market
    photos := if data.photos ≠ [] then data.photos else existing.photos
    description := data.description }

/-- One `upsert_listings` iteration for a single listing identity
(persistence.py lines 254-320): merge the incoming record, rebuild the
snapshot, and create a snapshot plus diff events exactly when there is no
prior snapshot or the snapshot hash changed. -/
def upsertStep (data : ListingFields) (st : ListingState) : ListingState :=
  let fields :=
    match st.fields with
    | none => data
    | some ex => merge_fields data ex
  let oldSnap := st.snapshots.head?
  let snapshot_data := build_snapshot fields
  if oldSnap.map snapshot_hash = some (snapshot_hash snapshot_data) then
    { fields := some fields, snapshots := st.snapshots, events := st.events }
  else
    { fields := some fields
      snapshots := snapshot_data :: st.snapshots
      events := st.events ++ build_events oldSnap snapshot_data }

/-! Concrete snapshots and records used to instantiate the claims about
the Change-Detection Engine. -/

/-- An old snapshot whose normalized status is `active` and whose other
fields are absent. -/
def c1oldSnap : Snapshot :=
  { price := none, listing_status := some "active", days_on_market := none
    photos_hash := none, description_hash := none }

/-- A successor of `c1oldSnap` whose normalized status is `None`. -/
def c1newSnap : Snapshot := { c1oldSnap with listing_status := none }

/-- An old snapshot with status `pending`. -/
def c1wOldSnap : Snapshot := { c1oldSnap with listing_status := some "pending" }

/-- A successor of `c1wOldSnap` with status `active`. -/
def c1wNewSnap : Snapshot := { c1oldSnap with listing_status := some "active" }

/-- An old snapshot with no price. -/
def c2oldSnap : Snapshot :=
  { price := none, listing_status := some "active", days_on_market := none
    photos_hash := none, description_hash := none }

/-- A successor of `c2oldSnap` with price 100. -/
def c2newSnap : Snapshot := { c2oldSnap with price := some 100 }

/-- An old snapshot priced at 1000. -/
def c2wOldSnap : Snapshot :=
  { price := some 1000, listing_status := none, days_on_market := none
    photos_hash := none, description_hash := none }

/-- A successor of `c2wOldSnap` priced at 900. -/
def c2wNewSnap : Snapshot := { c2wOldSnap with price := some 900 }

/-- A concrete listing record. -/
def c9data1 : ListingFields :=
  { price := some 500000, listing_status := some "Active"
    days_on_market := some 10, photos := ["a.jpg", "b.jpg"]
    description := some "Sunny home with deck" }

/-- The same record as `c9data1` with only `days_on_market` changed. -/
def c9data2 : ListingFields := { c9data1 with days_on_market := some 25 }

end Persistence

namespace WeightLearning

/-!
## Bounded Weight-Learning Service (`app/services/weight_learning.py`)

The stored multiplier state and the part of `recalculate_user_weights`
that mutates it, translated from `app/services/weight_learning.py`.
The wall-clock `last_updated` timestamp is not modelled.
-/

def DELTA_PER_SIGNAL : ℚ := 5 / 100

def MAX_DELTA_PER_RECALC : ℚ := 1 / 2

def WEIGHT_MULTIPLIER_MIN : ℚ := 1 / 2

def WEIGHT_MULTIPLIER_MAX : ℚ := 2

/-- A stored `LearnedWeight` entry (the `last_updated` timestamp is
omitted). -/
structure LearnedWeight where
  multiplier : ℚ
  signal_count : ℕ
deriving DecidableEq, Repr

/-- `_apply_bounded_delta`: add the delta and clamp the result to
`[WEIGHT_MULTIPLIER_MIN, WEIGHT_MULTIPLIER_MAX]`. -/
def apply_bounded_delta (current_multiplier delta : ℚ) : ℚ :=
  max WEIGHT_MULTIPLIER_MIN
    (min WEIGHT_MULTIPLIER_MAX (current_multiplier + delta))

/-- The per-user learned-weights store (`user.learned_weights`), as an
association list criterion → entry. -/
abbrev LearnedWeights := List (String × LearnedWeight)

/-- Lookup of a criterion's stored entry. -/
def LearnedWeights.find? (ws : LearnedWeights) (c : String) :
    Option LearnedWeight :=
  (List.find? (fun p => p.1 = c) ws).map (·.2)

/-- The delta clamp of `calculate_weight_updates` (weight_learning.py
lines 234-238): each accumulated per-criterion delta is clamped to
`±MAX_DELTA_PER_RECALC`. -/
def clamp_deltas (deltas : List (String × ℚ)) : List (String × ℚ) :=
  deltas.map fun p =>
    (p.1, max (-MAX_DELTA_PER_RECALC) (min MAX_DELTA_PER_RECALC p.2))

/-- The persisting step of `recalculate_user_weights` (weight_learning.py
lines 288-310): apply each clamped delta to the stored multiplier
(default `1.0`), clamp to the multiplier bounds, store it rounded to
three decimals, and carry over every untouched criterion unchanged.
`signalCounts` stands for the per-criterion signal counts computed by
`calculate_weight_updates`. -/
def recalcStep (deltas : List (String × ℚ)) (signalCounts : String → ℕ)
    (existing : LearnedWeights) : LearnedWeights :=
  let updated := (clamp_deltas deltas).map fun p =>
    let current_multiplier :=
      ((existing.find? p.1).map (·.multiplier)).getD 1
    (p.1,
      ({ multiplier := pythonRound3 (apply_bounded_delta current_multiplier p.2)
         signal_count := signalCounts p.1 } : LearnedWeight))
  updated ++ existing.filter fun p => (updated.find? (fun q => q.1 = p.1)).isNone

/-- A whole history of `recalculate_user_weights` calls applied to a
fresh user: each call contributes its clamped delta map and its signal
counts. -/
def runRecalcs (steps : List (List (String × ℚ) × (String → ℕ))) :
    LearnedWeights :=
  steps.foldl (fun st s => recalcStep s.1 s.2 st) []

/-- A concrete recalculation history: one call with a single raw delta
of +3 on `natural_light`. -/
def c6steps : List (List (String × ℚ) × (String → ℕ)) :=
  [([("natural_light", 3)], fun _ => 1)]

end WeightLearning

namespace Geospatial

/-!
## Geospatial Noise Model (`app/services/geospatial.py`)

`calculate_tranquility_score`, translated from
`app/services/geospatial.py`.  The point-to-polyline geometry (Haversine
distances over the static SF/NYC noise-source tables) is transcendental
real arithmetic; it is abstracted as a `vicinity` oracle giving, for a
covered coordinate, the nearest busy street / freeway / fire station
with their distances (in meters) and severities.  Both cities' source
tables are non-empty, so a nearest source of each kind always exists.
-/

/-- Nearest-noise-source data for one coordinate: the name, severity and
minimum distance of the nearest busy street and freeway, and the name
and minimum distance of the nearest fire station (fire stations carry no
severity in the data tables). -/
structure NoiseVicinity where
  streetName : String
  streetSeverity : ℚ
  streetDist : ℚ
  freewayName : String
  freewaySeverity : ℚ
  freewayDist : ℚ
  fireName : String
  fireDist : ℚ
deriving DecidableEq, Repr

/-- The result of `calculate_tranquility_score` (the `factors` breakdown
is not modelled). -/
structure TranquilityResult where
  score : Option ℤ
  warnings : List String
  confidence : String
deriving DecidableEq, Repr

/-- `_is_in_sf`: the San Francisco coverage bounding box. -/
def is_in_sf (lat lon : ℚ) : Prop :=
  37707/1000 ≤ lat ∧ lat ≤ 3783/100 ∧ -122515/1000 ≤ lon ∧ lon ≤ -122355/1000

instance (lat lon : ℚ) : Decidable (is_in_sf lat lon) := by
  unfold is_in_sf; infer_instance

/-- `_is_in_nyc`: the New York City coverage bounding box. -/
def is_in_nyc (lat lon : ℚ) : Prop :=
  4062/100 ≤ lat ∧ lat ≤ 408/10 ∧ -7405/100 ≤ lon ∧ lon ≤ -739/10

instance (lat lon : ℚ) : Decidable (is_in_nyc lat lon) := by
  unfold is_in_nyc; infer_instance

/-- The in-coverage body of `calculate_tranquility_score` (geospatial.py
lines 365-451): start from 100, subtract the street tier weighted by the
nearest street's severity, the flat freeway tier and the flat
fire-station tier, accumulate warnings, then clamp the rounded score to
`[0, 100]`. -/
def coverage_result (v : NoiseVicinity) : TranquilityResult :=
  let streetName := v.streetName
  let freewayName := v.freewayName
  let fireName := v.fireName
  let s0 : ℚ := 100
  let p1 :=
    if v.streetDist < 30 then
      (s0 - 35 * v.streetSeverity, [s!"On {streetName} (high traffic)"])
    else if v.streetDist < 75 then
      (s0 - 25 * v.streetSeverity, [s!"Near {streetName}"])
    else if v.streetDist < 150 then (s0 - 15 * v.streetSeverity, [])
    else if v.streetDist < 300 then (s0 - 8 * v.streetSeverity, [])
    else (s0, [])
  let p2 :=
    if v.freewayDist < 500 then
      if v.freewayDist < 100 then
        (p1.1 - 40, p1.2 ++ [s!"Adjacent to {freewayName}"])
      else if v.freewayDist < 200 then
        (p1.1 - 30, p1.2 ++ [s!"Very close to {freewayName}"])
      else if v.freewayDist < 300 then (p1.1 - 20, p1.2)
      else (p1.1 - 10, p1.2)
    else p1
  let p3 :=
    if v.fireDist < 150 then (p2.1 - 10, p2.2 ++ [s!"Near {fireName}"])
    else if v.fireDist < 300 then (p2.1 - 5, p2.2)
    else p2
  { score := some (max 0 (min 100 (roundHalfEven p3.1)))
    warnings := p3.2
    confidence := if v.streetDist < 500 then "high" else "medium" }

/-- `calculate_tranquility_score` (geospatial.py lines 321-451): neutral
score 50 when a coordinate is missing, `None` score outside both covered
metro bounding boxes, and the noise-proximity score otherwise.  The
`vicinity` oracle abstracts the Haversine geometry against the selected
city's static noise-source tables. -/
def calculate_tranquility_score (vicinity : ℚ → ℚ → NoiseVicinity)
    (lat lon : Option ℚ) : TranquilityResult :=
  match lat, lon with
  | some a, some b =>
      if is_in_sf a b then coverage_result (vicinity a b)
      else if is_in_nyc a b then coverage_result (vicinity a b)
      else
        { score := none
          warnings := ["Outside coverage area"]
          confidence := "low" }
  | _, _ =>
      { score := some 50
        warnings := ["No location data available"]
        confidence := "low" }

/-- The spec's reading of the penalty rule, for comparison: every tier
penalty — freeway and fire-station tiers included — is weighted by the
nearest source's severity.  Fire stations carry no severity in the data
tables, so the siren tier can only be read with unit weight. -/
def severity_weighted_result (v : NoiseVicinity) : Option ℤ :=
  let s1 :=
    if v.streetDist < 30 then (100 : ℚ) - 35 * v.streetSeverity
    else if v.streetDist < 75 then 100 - 25 * v.streetSeverity
    else if v.streetDist < 150 then 100 - 15 * v.streetSeverity
    else if v.streetDist < 300 then 100 - 8 * v.streetSeverity
    else 100
  let s2 :=
    if v.freewayDist < 100 then s1 - 40 * v.freewaySeverity
    else if v.freewayDist < 200 then s1 - 30 * v.freewaySeverity
    else if v.freewayDist < 300 then s1 - 20 * v.freewaySeverity
    else if v.freewayDist < 500 then s1 - 10 * v.freewaySeverity
    else s1
  let s3 :=
    if v.fireDist < 150 then s2 - 10
    else if v.fireDist < 300 then s2 - 5
    else s2
  some (max 0 (min 100 (roundHalfEven s3)))

/-- The street tier table (35/25/15/8 inside 30/75/150/300 m), weighted
by the nearest street's severity. -/
def street_penalty (severity dist : ℚ) : ℚ :=
  if dist < 30 then 35 * severity
  else if dist < 75 then 25 * severity
  else if dist < 150 then 15 * severity
  else if dist < 300 then 8 * severity
  else 0

/-- The freeway tier table (flat 40/30/20/10 inside 100/200/300/500 m). -/
def freeway_penalty (dist : ℚ) : ℚ :=
  if dist < 100 then 40
  else if dist < 200 then 30
  else if dist < 300 then 20
  else if dist < 500 then 10
  else 0

/-- The fire-station tier table (flat 10/5 inside 150/300 m). -/
def fire_penalty (dist : ℚ) : ℚ :=
  if dist < 150 then 10
  else if dist < 300 then 5
  else 0

/-- A concrete vicinity: far from any busy street (1000 m) and fire
station (1000 m), 50 m from a freeway of severity 0.95 (the severity of
I-280 in the SF table and of FDR Drive in the NYC table). -/
def c5vic : NoiseVicinity :=
  { streetName := "Geary Blvd", streetSeverity := 1, streetDist := 1000
    freewayName := "I-280", freewaySeverity := 19/20, freewayDist := 50
    fireName := "Station 7 (Mission)", fireDist := 1000 }

/-- A constant vicinity oracle used to instantiate the dispatch claims. -/
def c10vic : ℚ → ℚ → NoiseVicinity := fun _ _ =>
  { streetName := "Van Ness Ave", streetSeverity := 9/10, streetDist := 1000
    freewayName := "US-101 (Central)", freewaySeverity := 1
    freewayDist := 1000
    fireName := "Station 1 (Embarcadero)", fireDist := 1000 }

end Geospatial

namespace Matching

/-!
## Scoring & Matching Engine gate (`PropertyMatcher.score_listing`)

`PropertyMatcher.score_listing` is invoked by
`app/services/listing_alerts.py`, `app/routes/listings.py` and
`tests/test_scoring.py`, but its implementation is not present in the
sources; the model below follows the spec's two-stage gate-then-score
design.
-/

/-- The inactive listing statuses excluded by the status gate
(`app/services/advanced_matching.py` line 615). -/
def INACTIVE_STATUSES : List String :=
  ["pending", "contingent", "sold", "off market", "off_market"]

/-- Modelled from the spec: the buyer config's `hard_filters` block
(price ceiling, minimum beds/baths/sqft, required neighborhoods), whose
loader and consumer (`score_listing`) are missing from the sources. -/
structure HardFilters where
  price_max : Option ℚ
  bedrooms_min : Option ℚ
  bathrooms_min : Option ℚ
  sqft_min : Option ℚ
  neighborhoods : List String
deriving DecidableEq, Repr

/-- Sale vs rental search mode (`settings.SEARCH_MODE`). -/
inductive SearchMode where
  | sale
  | rent
deriving DecidableEq, Repr

/-- The listing fields consulted by the `score_listing` gate. -/
structure GateListing where
  price : Option ℚ
  beds : Option ℚ
  baths : Option ℚ
  sqft : Option ℚ
  neighborhood : Option String
  listing_status : Option String
  tranquility_score : Option ℤ
  hasDarkSignal : Bool
  hasLightSignal : Bool
  hasBusyStreetSignal : Bool
  hasNegativeLayoutSignal : Bool
  hasNoParkingSignal : Bool
  hasNoPetsFlag : Bool
deriving DecidableEq, Repr

/-- Modelled from the spec: the first gate layer of `score_listing` —
price ≤ ceiling, beds/baths/sqft ≥ configured minimums, neighborhood in
the required set if one is configured, status not in the inactive set. -/
def hard_filter_pass (hf : HardFilters) (l : GateListing) : Bool :=
  (match hf.price_max, l.price with
   | some m, some p => decide (p ≤ m)
   | _, _ => true) &&
  (match hf.bedrooms_min, l.beds with
   | some m, some b => decide (m ≤ b)
   | _, _ => true) &&
  (match hf.bathrooms_min, l.baths with
   | some m, some b => decide (m ≤ b)
   | _, _ => true) &&
  (match hf.sqft_min, l.sqft with
   | some m, some s => decide (m ≤ s)
   | _, _ => true) &&
  (hf.neighborhoods.isEmpty ||
   (match l.neighborhood with
    | some nb => decide (nb ∈ hf.neighborhoods)
    | none => false)) &&
  (match l.listing_status with
   | some s => !(INACTIVE_STATUSES.contains s.trim.toLower)
   | none => true)

/-- Modelled from the spec: the second, signal-dependent gate layer —
dark-interior signal with no offsetting light signal, busy-street signal
or tranquility score below 40, negative-layout signal, a no-parking
signal in sale mode, a no-pets flag in rental mode. -/
def signal_gate_pass (mode : SearchMode) (l : GateListing) : Bool :=
  !(l.hasDarkSignal && !l.hasLightSignal) &&
  !(l.hasBusyStreetSignal ||
    (match l.tranquility_score with
     | some t => decide (t < 40)
     | none => false)) &&
  !l.hasNegativeLayoutSignal &&
  !(decide (mode = SearchMode.sale) && l.hasNoParkingSignal) &&
  !(decide (mode = SearchMode.rent) && l.hasNoPetsFlag)

/-- Modelled from the spec: `score_listing` — both gate layers must pass
before any scoring happens; any gate failure short-circuits to `false`
with no scoring, otherwise the listing matches when its score percentage
reaches `min_score_percent`.  The ~20-criterion weighted composite is
abstracted as the `scoreBody` argument since the gate never invokes it
on a failure. -/
def score_listing (scoreBody : GateListing → ℚ) (hf : HardFilters)
    (mode : SearchMode) (min_score_percent : ℚ) (l : GateListing) : Bool :=
  if hard_filter_pass hf l && signal_gate_pass mode l then
    decide (min_score_percent ≤ scoreBody l)
  else false

/-- The hard filters of the test configuration: price ceiling 3.5M, 3+
beds, 2+ baths, 1600+ sqft, Noe Valley. -/
def c3hf : HardFilters :=
  { price_max := some 3500000, bedrooms_min := some 3
    bathrooms_min := some 2, sqft_min := some 1600
    neighborhoods := ["Noe Valley"] }

/-- A listing priced at 4M that satisfies every other hard filter and
every feature signal. -/
def c3listing : GateListing :=
  { price := some 4000000, beds := some 3, baths := some 2
    sqft := some 1700, neighborhood := some "Noe Valley"
    listing_status := none, tranquility_score := none
    hasDarkSignal := false, hasLightSignal := true
    hasBusyStreetSignal := false, hasNegativeLayoutSignal := false
    hasNoParkingSignal := false, hasNoPetsFlag := false }

end Matching

namespace Ingestion

/-!
## Fetch Orchestrator (`app/services/ingestion.py`)

The detail-enrichment phase `_enrich_summaries` and the candidate
deduplication / prioritization of `run_ingestion_job`, translated from
`app/services/ingestion.py`.  Provider records are modelled as a record
of the contract's well-known optional keys; `None`-valued and absent
keys coincide in every code path modelled here.
-/

/-- A provider record (`RawListingFields`): the well-known optional keys
of the provider contract. -/
structure RawListing where
  source : Option String
  source_listing_id : Option String
  listing_id : Option String
  url : Option String
  address : Option String
  price : Option ℚ
  beds : Option ℚ
  baths : Option ℚ
  sqft : Option ℚ
  lat : Option ℚ
  lon : Option ℚ
  description : Option String
  neighborhood : Option String
  photos : Option (List String)
deriving DecidableEq, Repr

/-- An entirely absent record, for building concrete examples. -/
def emptyRaw : RawListing :=
  { source := none, source_listing_id := none, listing_id := none
    url := none, address := none, price := none, beds := none
    baths := none, sqft := none, lat := none, lon := none
    description := none, neighborhood := none, photos := none }

/-- Python truthiness on an optional string: `None` and `""` are falsy. -/
def nonFalsy (o : Option String) : Option String :=
  o.bind fun s => if s = "" then none else some s

/-- `_apply_source_fields`: default `source` to the provider key when
falsy, and default `source_listing_id` to `listing_id` when the former
is `None` and the latter is not. -/
def apply_source_fields (l : RawListing) (source_key : String) : RawListing :=
  let l1 :=
    if nonFalsy l.source = none then { l with source := some source_key }
    else l
  if l1.source_listing_id = none ∧ l1.listing_id ≠ none then
    { l1 with source_listing_id := l1.listing_id }
  else l1

/-- The detail-candidate identifier of `_enrich_summaries`
(`summary.get("source_listing_id") or summary.get("listing_id")`,
rejected when falsy). -/
def enrich_id (s : RawListing) : Option String :=
  (nonFalsy s.source_listing_id).orElse fun _ => nonFalsy s.listing_id

/-- The generic borough names a detail response must not overwrite a
specific search-tagged neighborhood with (ingestion.py line 200). -/
def GENERIC_NEIGHBORHOODS : List String :=
  ["brooklyn", "manhattan", "new york", "queens", "bronx", "staten island"]

/-- The detail-over-summary merge of `_enrich_summaries` (ingestion.py
lines 194-207): non-`None` detail values overwrite summary values; a
specific search-tagged neighborhood is restored over a generic borough
name; a detail response that mentions photos fixes the photo list (empty
stays empty), and otherwise a falsy photo list becomes `[]`. -/
def merge_details (s d : RawListing) : RawListing :=
  let m : RawListing :=
    { source := d.source.orElse fun _ => s.source
      source_listing_id := d.source_listing_id.orElse fun _ => s.source_listing_id
      listing_id := d.listing_id.orElse fun _ => s.listing_id
      url := d.url.orElse fun _ => s.url
      address := d.address.orElse fun _ => s.address
      price := d.price.orElse fun _ => s.price
      beds := d.beds.orElse fun _ => s.beds
      baths := d.baths.orElse fun _ => s.baths
      sqft := d.sqft.orElse fun _ => s.sqft
      lat := d.lat.orElse fun _ => s.lat
      lon := d.lon.orElse fun _ => s.lon
      description := d.description.orElse fun _ => s.description
      neighborhood := d.neighborhood.orElse fun _ => s.neighborhood
      photos := d.photos.orElse fun _ => s.photos }
  let m2 :=
    match s.neighborhood with
    | some saved =>
        if saved ≠ "" ∧ m.neighborhood ≠ some saved ∧
            (m.neighborhood.getD "").toLower ∈ GENERIC_NEIGHBORHOODS then
          { m with neighborhood := some saved }
        else m
    | none => m
  match d.photos with
  | some ps => { m2 with photos := some ps }
  | none => if m2.photos.getD [] = [] then { m2 with photos := some [] } else m2

/-- `_enrich_summaries` (ingestion.py lines 81-247).  `get_details`
models the provider's detail fetch: `none` stands for a failed, timed
out or empty detail payload (all of which leave the summary unmerged),
`some d` for a non-empty payload.  `post` stands for the uniform
per-record enrichment of lines 209-244 (keyword-flag extraction,
tranquility score, neighborhood resolution, light potential), which the
code skips for records without a usable identifier.  Returns the
enriched records in order and `detail_calls_made`. -/
def enrich_summaries (get_details : String → Option RawListing)
    (post : RawListing → RawListing) (source_key : String)
    (supports_details : Bool) (max_detail_calls : ℕ)
    (summaries : List RawListing) : List RawListing × ℕ :=
  let detail_candidates :=
    if supports_details ∧ 0 < max_detail_calls then
      ((summaries.enum.filterMap fun p =>
        (enrich_id p.2).map fun id => (p.1, id))).take max_detail_calls
    else []
  let detail_results : ℕ → Option RawListing := fun i =>
    match detail_candidates.find? (fun c => c.1 = i) with
    | some c => get_details c.2
    | none => none
  let enriched := summaries.enum.map fun p =>
    match enrich_id p.2 with
    | none => apply_source_fields p.2 source_key
    | some _ =>
        let merged :=
          match detail_results p.1 with
          | some d => merge_details p.2 d
          | none => p.2
        apply_source_fields (post merged) source_key
  (enriched, detail_candidates.length)

/-- The dedup identifier of `run_ingestion_job` (ingestion.py lines
318-328): `source_listing_id` when neither `None` nor `""`, else
`listing_id` when not `None`, else a non-blank stripped `url`.  A falsy
result (modelled `none`) leaves the candidate keyless. -/
def source_id (s : RawListing) : Option String :=
  match s.source_listing_id with
  | some v =>
      if v ≠ "" then some v
      else
        match s.listing_id with
        | some w => nonFalsy (some w)
        | none => nonFalsy (s.url.map String.trim)
  | none =>
      match s.listing_id with
      | some w => nonFalsy (some w)
      | none => nonFalsy (s.url.map String.trim)

/-- The dedup key `(source, identifier)` of a candidate, when it has a
usable identifier. -/
def summary_key (s : RawListing) : Option (Option String × String) :=
  (source_id s).map fun id => (s.source, id)

/-- The dedup loop of `run_ingestion_job` (ingestion.py lines 315-333):
walk the candidates in order, keep every keyless candidate, keep a keyed
candidate only when its key was not seen before. -/
def dedup_summaries : List RawListing → List (Option String × String) →
    List RawListing
  | [], _ => []
  | s :: rest, seen =>
      match summary_key s with
      | none => s :: dedup_summaries rest seen
      | some k =>
          if k ∈ seen then dedup_summaries rest seen
          else s :: dedup_summaries rest (k :: seen)

/-- Deduplicated `unique_summaries`. -/
def dedup (xs : List RawListing) : List RawListing := dedup_summaries xs []

/-- The sort key of the prioritization (ingestion.py lines 344-352):
`0` when the configured price ceiling and the candidate price are both
truthy and the price is within the ceiling, else `1`; ties broken by
descending photo count. -/
def priority_flag (price_max : Option ℚ) (s : RawListing) : ℕ :=
  match price_max, s.price with
  | some m, some p => if m ≠ 0 ∧ p ≠ 0 ∧ p ≤ m then 0 else 1
  | _, _ => 1

/-- The comparator realizing Python's stable sort by
`(priority_flag, -photo_count)`. -/
def priority_le (price_max : Option ℚ) (a b : RawListing) : Bool :=
  decide (priority_flag price_max a < priority_flag price_max b ∨
    (priority_flag price_max a = priority_flag price_max b ∧
      ((b.photos.getD []).length : ℤ) ≤ ((a.photos.getD []).length : ℤ)))

/-- `unique_summaries.sort(key=...)`: a stable sort of the deduplicated
candidates by the priority key. -/
def prioritize (price_max : Option ℚ) (xs : List RawListing) :
    List RawListing :=
  xs.mergeSort (priority_le price_max)

/-- Three summaries carrying identifiers A1, A2, A3. -/
def c7s0 : RawListing := { emptyRaw with listing_id := some "A1" }

/-- Second summary. -/
def c7s1 : RawListing := { emptyRaw with listing_id := some "A2" }

/-- Third summary. -/
def c7s2 : RawListing := { emptyRaw with listing_id := some "A3" }

/-- A detail fetcher knowing A1 and A2. -/
def c7details : String → Option RawListing := fun id =>
  if id = "A1" then some { emptyRaw with description := some "bright A1" }
  else if id = "A2" then some { emptyRaw with description := some "sunny A2" }
  else none

/-- A duplicate candidate over the price ceiling with no photos. -/
def c8a : RawListing :=
  { emptyRaw with
    source := some "zillow"
    source_listing_id := some "X1"
    price := some 4000000
    photos := some [] }

/-- A duplicate of `c8a` (same key) within the ceiling with five
photos. -/
def c8b : RawListing :=
  { emptyRaw with
    source := some "zillow"
    source_listing_id := some "X1"
    price := some 1000000
    photos := some ["p1", "p2", "p3", "p4", "p5"] }

end Ingestion

/-!
# Theorems
-/

namespace Persistence

/-- Merging a record onto a listing that already holds exactly its
fields changes nothing. -/
theorem merge_fields_self (d : ListingFields) : merge_fields d d = d := by
  cases d
  simp [merge_fields]

/-- The first upsert of a listing: one snapshot, one `new_listing`
event. -/
theorem upsertStep_empty (d : ListingFields) :
    upsertStep d emptyListingState =
      { fields := some d
        snapshots := [build_snapshot d]
        events := [Event.new_listing (normalize_price d.price)
          (normalize_status d.listing_status)] } := by
  simp [upsertStep, emptyListingState, build_events, build_snapshot]

/-- C4: Upserting the same unchanged record twice produces exactly one
snapshot and exactly one `new_listing` event: the second upsert
recomputes the same snapshot hash as the stored snapshot and is a
complete no-op, so `upsertStep` is idempotent on the snapshot history
and the event log. -/
theorem upsert_unchanged_record_idempotent (d : ListingFields) :
    upsertStep d (upsertStep d emptyListingState) =
        upsertStep d emptyListingState ∧
    (upsertStep d emptyListingState).snapshots.length = 1 ∧
    (upsertStep d emptyListingState).events =
      [Event.new_listing (normalize_price d.price)
        (normalize_status d.listing_status)] := by
  rw [upsertStep_empty]
  refine ⟨?_, rfl, rfl⟩
  simp [upsertStep, merge_fields_self]

/-- C9: An upsert in which only `days_on_market` differs from the
listing's latest snapshot creates no snapshot and no event, because the
snapshot hash ranges only over price, status, photo hash and
description hash — even though the snapshot data does record
`days_on_market`. -/
theorem upsert_dom_only_change_is_noop (d1 d2 : ListingFields)
    (hp : d2.price = d1.price) (hs : d2.listing_status = d1.listing_status)
    (hph : d2.photos = d1.photos) (hd : d2.description = d1.description) :
    (upsertStep d2 (upsertStep d1 emptyListingState)).snapshots =
        (upsertStep d1 emptyListingState).snapshots ∧
    (upsertStep d2 (upsertStep d1 emptyListingState)).events =
        (upsertStep d1 emptyListingState).events ∧
    (upsertStep d1 emptyListingState).snapshots = [build_snapshot d1] ∧
    (build_snapshot d1).days_on_market = d1.days_on_market := by
  rw [upsertStep_empty]
  have hmerge : merge_fields d2 d1 =
      { d1 with days_on_market := d2.days_on_market } := by
    cases d1
    cases d2
    simp_all [merge_fields]
  have hbasis : snapshot_hash (build_snapshot (merge_fields d2 d1)) =
      snapshot_hash (build_snapshot d1) := by
    rw [hmerge]
    simp [snapshot_hash, build_snapshot]
  refine ⟨?_, ?_, rfl, rfl⟩ <;>
    simp [upsertStep, hbasis]

/-- Price events are not status-type events. -/
theorem price_events_filter_status (o n : Snapshot) :
    (price_events o n).filter Event.isStatusEvent = [] := by
  rw [List.filter_eq_nil_iff]
  intro e he
  obtain ⟨op, os, od, oph, odh⟩ := o
  obtain ⟨np, ns, nd, nph, ndh⟩ := n
  unfold price_events at he
  rcases op with _ | op <;> rcases np with _ | np <;> simp at he
  split at he <;> simp_all [Event.isStatusEvent]

/-- Photo events are not status-type events. -/
theorem photo_events_filter_status (o n : Snapshot) :
    (photo_events o n).filter Event.isStatusEvent = [] := by
  rw [List.filter_eq_nil_iff]
  intro e he
  obtain ⟨op, os, od, oph, odh⟩ := o
  obtain ⟨np, ns, nd, nph, ndh⟩ := n
  unfold photo_events at he
  rcases oph with _ | a <;> rcases nph with _ | b <;> simp at he
  simp_all [Event.isStatusEvent]

/-- Description events are not status-type events. -/
theorem description_events_filter_status (o n : Snapshot) :
    (description_events o n).filter Event.isStatusEvent = [] := by
  rw [List.filter_eq_nil_iff]
  intro e he
  obtain ⟨op, os, od, oph, odh⟩ := o
  obtain ⟨np, ns, nd, nph, ndh⟩ := n
  unfold description_events at he
  rcases odh with _ | a <;> rcases ndh with _ | b <;> simp at he
  simp_all [Event.isStatusEvent]

/-- Every event of the status clause is a status-type event. -/
theorem status_events_filter_status (o n : Snapshot) :
    (status_events o n).filter Event.isStatusEvent = status_events o n := by
  obtain ⟨op, os, od, oph, odh⟩ := o
  obtain ⟨np, ns, nd, nph, ndh⟩ := n
  unfold status_events
  rcases ns with _ | ns
  · rfl
  · simp only
    split_ifs <;> simp [Event.isStatusEvent]

/-- The status-type events of a snapshot diff are exactly the status
clause of `_build_events`. -/
theorem build_events_filter_status (o n : Snapshot) :
    (build_events (some o) n).filter Event.isStatusEvent =
      status_events o n := by
  simp [build_events, List.filter_append, price_events_filter_status,
    photo_events_filter_status, description_events_filter_status,
    status_events_filter_status]

/-- C1 counterexample: two consecutive snapshots whose normalized
statuses differ (`active` → `None`) for which `_build_events` emits no
status-type event at all, contradicting the claim that exactly one is
emitted whenever the statuses differ. -/
theorem status_change_claim_counterexample :
    c1oldSnap.listing_status ≠ c1newSnap.listing_status ∧
    (build_events (some c1oldSnap) c1newSnap).filter Event.isStatusEvent
      = [] := by
  constructor
  · decide
  · rfl

/-- C1 amended: for consecutive snapshots, `_build_events` emits no
status-type event when the normalized statuses are equal or when the new
status is null, and exactly one status-type event when they differ and
the new status is non-null — `back_on_market` exactly when the old
status is in {pending, contingent, sold} and the new status is `active`,
and a plain `status_change` otherwise. -/
theorem status_change_classification (o n : Snapshot) :
    (o.listing_status = n.listing_status →
      (build_events (some o) n).filter Event.isStatusEvent = []) ∧
    (n.listing_status = none →
      (build_events (some o) n).filter Event.isStatusEvent = []) ∧
    (∀ ns, n.listing_status = some ns → ns ≠ "" →
      o.listing_status ≠ some ns →
      (build_events (some o) n).filter Event.isStatusEvent =
        [if ns = "active" ∧
            (o.listing_status = some "pending" ∨
             o.listing_status = some "contingent" ∨
             o.listing_status = some "sold") then
          Event.back_on_market o.listing_status ns
         else Event.status_change o.listing_status ns]) := by
  simp only [build_events_filter_status]
  refine ⟨?_, ?_, ?_⟩
  · intro h
    unfold status_events
    cases hn : n.listing_status with
    | none => rfl
    | some ns =>
        rw [h, hn]
        simp
  · intro h
    simp only [status_events, h]
  · intro ns hn hne hol
    simp only [status_events, hn]
    rw [if_pos ⟨hne, hol⟩]
    split_ifs <;> rfl

/-- C1 witness: the `pending → active` transition yields exactly one
status-type event, a `back_on_market`. -/
theorem status_change_classification_witness :
    (build_events (some c1wOldSnap) c1wNewSnap).filter Event.isStatusEvent =
      [Event.back_on_market (some "pending") "active"] := by
  have h := (status_change_classification c1wOldSnap c1wNewSnap).2.2 "active"
    rfl (by decide) (by decide)
  simpa [c1wOldSnap, c1oldSnap] using h

/-- Price events are price-type events and nothing else in a snapshot
diff is. -/
theorem build_events_filter_price (o n : Snapshot) :
    (build_events (some o) n).filter Event.isPriceEvent =
      price_events o n := by
  have hst : (status_events o n).filter Event.isPriceEvent = [] := by
    rw [List.filter_eq_nil_iff]
    intro e he
    obtain ⟨op, os, od, oph, odh⟩ := o
    obtain ⟨np, ns, nd, nph, ndh⟩ := n
    unfold status_events at he
    rcases ns with _ | ns <;> simp at he
    split at he <;> simp_all [Event.isPriceEvent]
  have hph : (photo_events o n).filter Event.isPriceEvent = [] := by
    rw [List.filter_eq_nil_iff]
    intro e he
    obtain ⟨op, os, od, oph, odh⟩ := o
    obtain ⟨np, ns, nd, nph, ndh⟩ := n
    unfold photo_events at he
    rcases oph with _ | a <;> rcases nph with _ | b <;> simp at he
    simp_all [Event.isPriceEvent]
  have hd : (description_events o n).filter Event.isPriceEvent = [] := by
    rw [List.filter_eq_nil_iff]
    intro e he
    obtain ⟨op, os, od, oph, odh⟩ := o
    obtain ⟨np, ns, nd, nph, ndh⟩ := n
    unfold description_events at he
    rcases odh with _ | a <;> rcases ndh with _ | b <;> simp at he
    simp_all [Event.isPriceEvent]
  have hpr : (price_events o n).filter Event.isPriceEvent =
      price_events o n := by
    rw [List.filter_eq_self]
    intro e he
    obtain ⟨op, os, od, oph, odh⟩ := o
    obtain ⟨np, ns, nd, nph, ndh⟩ := n
    unfold price_events at he
    rcases op with _ | op <;> rcases np with _ | np <;> simp at he
    split at he <;> simp_all [Event.isPriceEvent]
  simp [build_events, List.filter_append, hst, hph, hd, hpr]

/-- C2 counterexample: two consecutive snapshots with different prices
(`None` → 100) for which `_build_events` emits no price event at all,
contradicting the claim that exactly one of `price_drop` /
`price_increase` is emitted whenever the prices differ. -/
theorem price_event_claim_counterexample :
    c2oldSnap.price ≠ c2newSnap.price ∧
    (build_events (some c2oldSnap) c2newSnap).filter Event.isPriceEvent
      = [] := by
  constructor
  · decide
  · rfl

/-- C2 amended: for consecutive snapshots that both carry a price,
`_build_events` emits exactly one price event when the prices differ —
`price_drop` exactly when the price fell and `price_increase` exactly
when it rose, never both — carrying `amount = |new − old|`, and, for
drops, `percent = amount / old × 100` unless the old price is zero (in
which case `percent` is null). -/
theorem price_event_exclusivity (o n : Snapshot) (op np : ℚ)
    (ho : o.price = some op) (hn : n.price = some np) (hne : op ≠ np) :
    (np < op →
      (build_events (some o) n).filter Event.isPriceEvent =
        [Event.price_drop op np (op - np)
          (if op = 0 then none else some ((op - np) / op * 100))]) ∧
    (op < np →
      (build_events (some o) n).filter Event.isPriceEvent =
        [Event.price_increase op np (np - op)]) := by
  rw [build_events_filter_price]
  unfold price_events
  rw [ho, hn]
  constructor
  · intro hlt
    have habs : |np - op| = op - np := by
      rw [abs_of_neg (by linarith)]
      ring
    simp only [if_pos hne, if_pos (show np - op < 0 by linarith), habs]
  · intro hlt
    simp only [if_pos hne, if_neg (show ¬ np - op < 0 by linarith)]

/-- C2 witness: a 1000 → 900 move emits exactly one `price_drop` with
amount 100 and percent 10. -/
theorem price_event_exclusivity_witness :
    (build_events (some c2wOldSnap) c2wNewSnap).filter Event.isPriceEvent =
      [Event.price_drop 1000 900 100 (some 10)] := by
  have h := (price_event_exclusivity c2wOldSnap c2wNewSnap 1000 900
    rfl rfl (by norm_num)).1 (by norm_num)
  rw [h]
  norm_num

/-- C9 witness: a record re-upserted with only `days_on_market` moved
from 10 to 25 adds no snapshot and no event. -/
theorem upsert_dom_only_change_is_noop_witness :
    (upsertStep c9data2 (upsertStep c9data1 emptyListingState)).snapshots =
        (upsertStep c9data1 emptyListingState).snapshots ∧
    (upsertStep c9data2 (upsertStep c9data1 emptyListingState)).events =
        (upsertStep c9data1 emptyListingState).events ∧
    (upsertStep c9data1 emptyListingState).snapshots = [build_snapshot c9data1] ∧
    (build_snapshot c9data1).days_on_market = c9data1.days_on_market :=
  upsert_dom_only_change_is_noop c9data1 c9data2 rfl rfl rfl rfl

end Persistence

/-- `roundHalfEven` never rounds below an integer lower bound. -/
theorem le_roundHalfEven (q : ℚ) (N : ℤ) (h : (N : ℚ) ≤ q) :
    N ≤ roundHalfEven q := by
  have hf : N ≤ ⌊q⌋ := Int.le_floor.mpr h
  simp only [roundHalfEven]
  split_ifs <;> omega

/-- `roundHalfEven` never rounds above an integer upper bound. -/
theorem roundHalfEven_le (q : ℚ) (N : ℤ) (h : q ≤ (N : ℚ)) :
    roundHalfEven q ≤ N := by
  have hf : ⌊q⌋ ≤ N := by
    have := Int.floor_le_floor (α := ℚ) h
    simpa using this
  have hfl : (⌊q⌋ : ℚ) ≤ q := Int.floor_le q
  simp only [roundHalfEven]
  split_ifs with h1 h2 h3
  · exact hf
  · have hup : (⌊q⌋ : ℚ) + 1/2 ≤ q := by
      have := not_lt.mp h1
      linarith
    have : (⌊q⌋ : ℚ) < N := by linarith
    have : ⌊q⌋ < N := by exact_mod_cast this
    omega
  · exact hf
  · have hup : (⌊q⌋ : ℚ) + 1/2 ≤ q := by
      have := not_lt.mp h1
      linarith
    have : (⌊q⌋ : ℚ) < N := by linarith
    have : ⌊q⌋ < N := by exact_mod_cast this
    omega

/-- Rounding to three decimals keeps a value inside `[1/2, 2]`. -/
theorem pythonRound3_mem (q : ℚ) (h1 : 1/2 ≤ q) (h2 : q ≤ 2) :
    1/2 ≤ pythonRound3 q ∧ pythonRound3 q ≤ 2 := by
  unfold pythonRound3
  have hlo : (500 : ℤ) ≤ roundHalfEven (q * 1000) := by
    have := le_roundHalfEven (q * 1000) 500 (by push_cast; linarith)
    omega
  have hhi : roundHalfEven (q * 1000) ≤ 2000 :=
    roundHalfEven_le (q * 1000) 2000 (by push_cast; linarith)
  have hlo' : (500 : ℚ) ≤ (roundHalfEven (q * 1000) : ℚ) := by
    exact_mod_cast hlo
  have hhi' : ((roundHalfEven (q * 1000) : ℚ)) ≤ 2000 := by
    exact_mod_cast hhi
  constructor <;> [linarith; linarith]

namespace WeightLearning

/-- The bounded-delta application always lands in the multiplier
bounds. -/
theorem apply_bounded_delta_mem (c d : ℚ) :
    1/2 ≤ apply_bounded_delta c d ∧ apply_bounded_delta c d ≤ 2 := by
  unfold apply_bounded_delta WEIGHT_MULTIPLIER_MIN WEIGHT_MULTIPLIER_MAX
  exact ⟨le_max_left _ _, max_le (by norm_num) (min_le_left _ _)⟩

/-- One recalculation preserves the multiplier bounds of every stored
entry. -/
theorem recalcStep_preserves_bounds (deltas : List (String × ℚ))
    (signalCounts : String → ℕ) (existing : LearnedWeights)
    (h : ∀ p ∈ existing, 1/2 ≤ p.2.multiplier ∧ p.2.multiplier ≤ 2) :
    ∀ p ∈ recalcStep deltas signalCounts existing,
      1/2 ≤ p.2.multiplier ∧ p.2.multiplier ≤ 2 := by
  intro p hp
  unfold recalcStep at hp
  rw [List.mem_append] at hp
  rcases hp with hp | hp
  · rw [List.mem_map] at hp
    obtain ⟨q, hq, rfl⟩ := hp
    have hb := apply_bounded_delta_mem
      (((existing.find? q.1).map (·.multiplier)).getD 1) q.2
    exact pythonRound3_mem _ hb.1 hb.2
  · exact h p (List.mem_of_mem_filter hp)

/-- C6: After any sequence of `recalculate_user_weights` calls on a
fresh user, every stored learned-weight multiplier lies in
`[0.5, 2.0]`: each call adds the clamped per-criterion delta to the
existing multiplier and clamps the result to the bounds before
persisting it (rounded to three decimals), and carries untouched
entries over unchanged. -/
theorem learned_multiplier_bounds
    (steps : List (List (String × ℚ) × (String → ℕ))) (c : String)
    (w : LearnedWeight) (h : (c, w) ∈ runRecalcs steps) :
    1/2 ≤ w.multiplier ∧ w.multiplier ≤ 2 := by
  have main : ∀ (ss : List (List (String × ℚ) × (String → ℕ)))
      (acc : LearnedWeights),
      (∀ p ∈ acc, 1/2 ≤ p.2.multiplier ∧ p.2.multiplier ≤ 2) →
      ∀ p ∈ ss.foldl (fun st s => recalcStep s.1 s.2 st) acc,
        1/2 ≤ p.2.multiplier ∧ p.2.multiplier ≤ 2 := by
    intro ss
    induction ss with
    | nil => intro acc hacc; simpa using hacc
    | cons s rest ih =>
        intro acc hacc
        exact ih _ (recalcStep_preserves_bounds s.1 s.2 acc hacc)
  exact main steps [] (by simp [LearnedWeights]) (c, w) h

/-- C6 witness: one recalculation with raw delta +3 on `natural_light`
stores the clamped multiplier 1.5, which the theorem places in the
bounds. -/
theorem learned_multiplier_bounds_witness :
    ("natural_light",
        ({ multiplier := 3/2, signal_count := 1 } : LearnedWeight)) ∈
      runRecalcs c6steps ∧
    (1/2 : ℚ) ≤ 3/2 ∧ (3/2 : ℚ) ≤ 2 := by
  have hrun : runRecalcs c6steps =
      [("natural_light", ⟨3/2, 1⟩)] := by
    show recalcStep [("natural_light", 3)] (fun _ => 1) [] = _
    unfold recalcStep clamp_deltas apply_bounded_delta pythonRound3
      roundHalfEven LearnedWeights.find? WEIGHT_MULTIPLIER_MIN
      WEIGHT_MULTIPLIER_MAX MAX_DELTA_PER_RECALC
    norm_num [max_def, min_def]
  have hmem : ("natural_light",
      ({ multiplier := 3/2, signal_count := 1 } : LearnedWeight)) ∈
      runRecalcs c6steps := by
    rw [hrun]
    exact List.mem_singleton.mpr rfl
  exact ⟨hmem,
    learned_multiplier_bounds c6steps "natural_light" ⟨3/2, 1⟩ hmem⟩

end WeightLearning

namespace Geospatial

/-- `roundHalfEven` fixes integers. -/
theorem roundHalfEven_intCast (n : ℤ) : roundHalfEven (n : ℚ) = n := by
  norm_num [roundHalfEven]

/-- C5 counterexample: 50 m from a severity-0.95 freeway (far from
streets and sirens) the code subtracts the flat 40-point tier and scores
60, while the claim's severity-weighted reading subtracts 40 × 0.95 and
scores 62 — freeway (and fire-station) penalties are not
severity-weighted. -/
theorem tranquility_severity_weighting_counterexample :
    (coverage_result c5vic).score = some 60 ∧
    severity_weighted_result c5vic = some 62 ∧
    (coverage_result c5vic).score ≠ severity_weighted_result c5vic := by
  have h1 : (coverage_result c5vic).score = some 60 := by
    unfold coverage_result c5vic
    norm_num
    rw [show (60 : ℚ) = ((60 : ℤ) : ℚ) by norm_num, roundHalfEven_intCast]
    decide
  have h2 : severity_weighted_result c5vic = some 62 := by
    unfold severity_weighted_result c5vic
    norm_num
    rw [show (62 : ℚ) = ((62 : ℤ) : ℚ) by norm_num, roundHalfEven_intCast]
    decide
  refine ⟨h1, h2, ?_⟩
  rw [h1, h2]
  decide

set_option maxHeartbeats 1600000 in
/-- C5 amended: inside a covered metro box the score starts from 100 and
subtracts tiered penalties as distance falls through the fixed bands —
the street tiers (35/25/15/8 inside 30/75/150/300 m) weighted by the
nearest street's severity, the freeway tiers (40/30/20/10 inside
100/200/300/500 m) and siren tiers (10/5 inside 150/300 m) flat — and
the result, rounded half-to-even to an integer and clamped to
`[0, 100]`, is the reported score. -/
theorem tranquility_penalty_structure (v : NoiseVicinity) :
    (coverage_result v).score =
      some (max 0 (min 100 (roundHalfEven
        (100 - street_penalty v.streetSeverity v.streetDist -
          freeway_penalty v.freewayDist - fire_penalty v.fireDist)))) ∧
    (0 : ℤ) ≤ max 0 (min 100 (roundHalfEven
        (100 - street_penalty v.streetSeverity v.streetDist -
          freeway_penalty v.freewayDist - fire_penalty v.fireDist))) ∧
    max 0 (min 100 (roundHalfEven
        (100 - street_penalty v.streetSeverity v.streetDist -
          freeway_penalty v.freewayDist - fire_penalty v.fireDist))) ≤ 100 := by
  refine ⟨?_, le_max_left _ _, max_le (by norm_num) (min_le_left _ _)⟩
  unfold coverage_result street_penalty freeway_penalty fire_penalty
  split_ifs <;>
    first
      | rfl
      | (exfalso; linarith)
      | (simp only [Option.some.injEq]; congr 3; ring)

/-- C10: a missing coordinate yields the neutral result — score 50,
confidence `low`, warning `No location data available` — while a null
score occurs exactly for coordinates outside both covered metro bounding
boxes. -/
theorem tranquility_missing_vs_uncovered (vicinity : ℚ → ℚ → NoiseVicinity)
    (lat lon : Option ℚ) :
    ((lat = none ∨ lon = none) →
      calculate_tranquility_score vicinity lat lon =
        { score := some 50
          warnings := ["No location data available"]
          confidence := "low" }) ∧
    (∀ a b, lat = some a → lon = some b →
      ((calculate_tranquility_score vicinity lat lon).score = none ↔
        ¬ is_in_sf a b ∧ ¬ is_in_nyc a b)) := by
  constructor
  · intro h
    rcases lat with _ | a
    · rfl
    rcases lon with _ | b
    · rfl
    rcases h with h | h <;> exact absurd h (by simp)
  · intro a b ha hb
    subst ha
    subst hb
    simp only [calculate_tranquility_score]
    split_ifs with h1 h2
    · constructor
      · intro hc
        exact absurd hc (by simp [coverage_result])
      · intro hc
        exact absurd h1 hc.1
    · constructor
      · intro hc
        exact absurd hc (by simp [coverage_result])
      · intro hc
        exact absurd h2 hc.2
    · exact ⟨fun _ => ⟨h1, h2⟩, fun _ => rfl⟩

/-- C10 witness: a missing latitude yields the neutral result, and the
coordinate (0, 0) — outside both boxes — yields a null score. -/
theorem tranquility_missing_vs_uncovered_witness :
    calculate_tranquility_score c10vic none (some 37) =
      { score := some 50
        warnings := ["No location data available"]
        confidence := "low" } ∧
    (calculate_tranquility_score c10vic (some 0) (some 0)).score = none := by
  refine ⟨(tranquility_missing_vs_uncovered c10vic none (some 37)).1
    (Or.inl rfl), ?_⟩
  exact ((tranquility_missing_vs_uncovered c10vic (some 0) (some 0)).2
    0 0 rfl rfl).mpr
    ⟨by norm_num [is_in_sf], by norm_num [is_in_nyc]⟩

end Geospatial

namespace Matching

/-- C3: a listing priced above the configured `hard_filters.price_max`
never matches — `score_listing` short-circuits to `false` in the price
gate regardless of the scoring body, the search mode, the threshold and
every other listing field. -/
theorem score_listing_price_gate (scoreBody : GateListing → ℚ)
    (hf : HardFilters) (mode : SearchMode) (min_score_percent : ℚ)
    (l : GateListing) (m p : ℚ) (hm : hf.price_max = some m)
    (hp : l.price = some p) (hover : m < p) :
    score_listing scoreBody hf mode min_score_percent l = false := by
  have hfail : ¬ (p ≤ m) := not_le.mpr hover
  simp [score_listing, hard_filter_pass, hm, hp, hfail]

/-- C3 witness: the 4M listing against the 3.5M ceiling is rejected even
with a maximal scoring body and a zero threshold. -/
theorem score_listing_price_gate_witness :
    score_listing (fun _ => 100) c3hf SearchMode.sale 0 c3listing = false :=
  score_listing_price_gate (fun _ => 100) c3hf SearchMode.sale 0 c3listing
    3500000 4000000 rfl rfl (by norm_num)

end Matching

namespace Ingestion

/-- C7: with 3 candidate summaries that all carry identifiers and a
detail-call budget of 2, `_enrich_summaries` makes exactly 2 detail
calls, the first two records carry the detail-merged fields and the
third carries summary-only fields; exhausting the budget never fails the
enrichment. -/
theorem enrichment_detail_budget (get_details : String → Option RawListing)
    (post : RawListing → RawListing) (source_key : String)
    (s0 s1 s2 d0 d1 : RawListing) (id0 id1 id2 : String)
    (h0 : enrich_id s0 = some id0) (h1 : enrich_id s1 = some id1)
    (h2 : enrich_id s2 = some id2)
    (g0 : get_details id0 = some d0) (g1 : get_details id1 = some d1) :
    enrich_summaries get_details post source_key true 2 [s0, s1, s2] =
      ([apply_source_fields (post (merge_details s0 d0)) source_key,
        apply_source_fields (post (merge_details s1 d1)) source_key,
        apply_source_fields (post s2) source_key], 2) := by
  unfold enrich_summaries
  simp [List.enum, List.enumFrom, h0, h1, h2, g0, g1]

/-- C7 witness: three concrete summaries, a fetcher knowing the first
two identifiers, budget 2. -/
theorem enrichment_detail_budget_witness :
    enrich_summaries c7details id "zillow" true 2 [c7s0, c7s1, c7s2] =
      ([apply_source_fields
          (merge_details c7s0 { emptyRaw with description := some "bright A1" })
          "zillow",
        apply_source_fields
          (merge_details c7s1 { emptyRaw with description := some "sunny A2" })
          "zillow",
        apply_source_fields c7s2 "zillow"], 2) :=
  enrichment_detail_budget c7details id "zillow" c7s0 c7s1 c7s2
    { emptyRaw with description := some "bright A1" }
    { emptyRaw with description := some "sunny A2" }
    "A1" "A2" "A3" rfl rfl rfl rfl rfl

/-- The dedup loop never reorders or invents candidates. -/
theorem dedup_summaries_sublist (xs : List RawListing)
    (seen : List (Option String × String)) :
    (dedup_summaries xs seen).Sublist xs := by
  induction xs generalizing seen with
  | nil => simp [dedup_summaries]
  | cons s rest ih =>
      unfold dedup_summaries
      cases hk : summary_key s with
      | none => exact (ih seen).cons₂ s
      | some k =>
          show (if k ∈ seen then dedup_summaries rest seen
            else s :: dedup_summaries rest (k :: seen)).Sublist (s :: rest)
          split_ifs with hmem
          · exact (ih seen).cons s
          · exact (ih (k :: seen)).cons₂ s

/-- Membership in the dedup loop's output: a candidate survives exactly
when it occurs at a position such that its key (if any) is neither in
the starting `seen` set nor carried by an earlier candidate. -/
theorem mem_dedup_summaries (xs : List RawListing)
    (seen : List (Option String × String)) (x : RawListing) :
    x ∈ dedup_summaries xs seen ↔
      ∃ l₁ l₂, xs = l₁ ++ x :: l₂ ∧
        ∀ k, summary_key x = some k →
          k ∉ seen ∧ ∀ y ∈ l₁, summary_key y ≠ some k := by
  induction xs generalizing seen with
  | nil =>
      constructor
      · intro h
        simp [dedup_summaries] at h
      · rintro ⟨l₁, l₂, h, -⟩
        exact absurd h (by simp)
  | cons s rest ih =>
      cases hk : summary_key s with
      | none =>
          simp only [dedup_summaries, hk]
          rw [List.mem_cons, ih]
          constructor
          · rintro (rfl | ⟨l₁, l₂, rfl, hcond⟩)
            · exact ⟨[], rest, rfl, fun k hxk => by simp [hk] at hxk⟩
            · refine ⟨s :: l₁, l₂, rfl, fun k hxk => ?_⟩
              obtain ⟨h1, h2⟩ := hcond k hxk
              refine ⟨h1, fun y hy => ?_⟩
              rcases List.mem_cons.mp hy with rfl | hy
              · rw [hk]
                exact fun h => Option.noConfusion h
              · exact h2 y hy
          · rintro ⟨l₁, l₂, heq, hcond⟩
            cases l₁ with
            | nil =>
                simp only [List.nil_append, List.cons.injEq] at heq
                exact Or.inl heq.1.symm
            | cons a l₁' =>
                simp only [List.cons_append, List.cons.injEq] at heq
                obtain ⟨rfl, hrest⟩ := heq
                refine Or.inr ⟨l₁', l₂, hrest, fun k hxk => ?_⟩
                obtain ⟨h1, h2⟩ := hcond k hxk
                exact ⟨h1, fun y hy => h2 y (List.mem_cons_of_mem _ hy)⟩
      | some ks =>
          simp only [dedup_summaries, hk]
          split_ifs with hmem
          · rw [ih]
            constructor
            · rintro ⟨l₁, l₂, rfl, hcond⟩
              refine ⟨s :: l₁, l₂, rfl, fun k hxk => ?_⟩
              obtain ⟨h1, h2⟩ := hcond k hxk
              refine ⟨h1, fun y hy => ?_⟩
              rcases List.mem_cons.mp hy with rfl | hy
              · rw [hk]
                intro hEq
                injection hEq with hEq
                exact h1 (hEq ▸ hmem)
              · exact h2 y hy
            · rintro ⟨l₁, l₂, heq, hcond⟩
              cases l₁ with
              | nil =>
                  simp only [List.nil_append, List.cons.injEq] at heq
                  obtain ⟨rfl, rfl⟩ := heq
                  exact absurd (hcond ks hk).1 (by simpa using hmem)
              | cons a l₁' =>
                  simp only [List.cons_append, List.cons.injEq] at heq
                  obtain ⟨rfl, hrest⟩ := heq
                  refine ⟨l₁', l₂, hrest, fun k hxk => ?_⟩
                  obtain ⟨h1, h2⟩ := hcond k hxk
                  exact ⟨h1, fun y hy => h2 y (List.mem_cons_of_mem _ hy)⟩
          · rw [List.mem_cons, ih]
            constructor
            · rintro (rfl | ⟨l₁, l₂, rfl, hcond⟩)
              · refine ⟨[], rest, rfl, fun k hxk => ?_⟩
                rw [hk] at hxk
                injection hxk with hxk
                subst hxk
                exact ⟨hmem, by simp⟩
              · refine ⟨s :: l₁, l₂, rfl, fun k hxk => ?_⟩
                obtain ⟨h1, h2⟩ := hcond k hxk
                refine ⟨fun hkseen => h1 (List.mem_cons_of_mem _ hkseen),
                  fun y hy => ?_⟩
                rcases List.mem_cons.mp hy with rfl | hy
                · rw [hk]
                  intro hEq
                  injection hEq with hEq
                  exact h1 (hEq ▸ List.mem_cons_self _ _)
                · exact h2 y hy
            · rintro ⟨l₁, l₂, heq, hcond⟩
              cases l₁ with
              | nil =>
                  simp only [List.nil_append, List.cons.injEq] at heq
                  exact Or.inl heq.1.symm
              | cons a l₁' =>
                  simp only [List.cons_append, List.cons.injEq] at heq
                  obtain ⟨rfl, hrest⟩ := heq
                  refine Or.inr ⟨l₁', l₂, hrest, fun k hxk => ?_⟩
                  obtain ⟨h1, h2⟩ := hcond k hxk
                  have hys : summary_key s ≠ some k :=
                    h2 s (List.mem_cons_self _ _)
                  refine ⟨?_, fun y hy => h2 y (List.mem_cons_of_mem _ hy)⟩
                  intro hkmem
                  rcases List.mem_cons.mp hkmem with rfl | hkmem
                  · exact hys hk
                  · exact h1 hkmem

/-- C8 counterexample: two candidates sharing the key
`(zillow, X1)` where the first is over the 3.5M ceiling with no photos
and the second is within the ceiling with five photos — the dedup loop
keeps the first-seen candidate, not the preferred duplicate. -/
theorem dedup_preference_counterexample :
    dedup [c8a, c8b] = [c8a] ∧
    summary_key c8a = summary_key c8b ∧
    summary_key c8a ≠ none ∧
    priority_flag (some 3500000) c8b = 0 ∧
    priority_flag (some 3500000) c8a = 1 ∧
    (c8a.photos.getD []).length < (c8b.photos.getD []).length := by
  refine ⟨by decide, by decide, by decide, ?_, ?_, by decide⟩
  · simp [priority_flag, c8b]
    norm_num
  · simp [priority_flag, c8a]
    norm_num

/-- C8 amended: candidate deduplication keys candidates by
`(source, identifier)` — the identifier falling back to the URL when no
stable identifier exists — and keeps, among candidates sharing a key,
exactly the FIRST one in fetch order (candidates without a usable key
are always kept); the preference for within-ceiling, photo-rich
candidates is a stable reordering of the deduplicated list (a
permutation, dropping nothing) that only prioritizes the detail-call
budget. -/
theorem dedup_keeps_first_occurrence (price_max : Option ℚ)
    (xs : List RawListing) (x : RawListing) :
    (dedup xs).Sublist xs ∧
    (prioritize price_max (dedup xs)).Perm (dedup xs) ∧
    (x ∈ dedup xs ↔ ∃ l₁ l₂, xs = l₁ ++ x :: l₂ ∧
      ∀ k, summary_key x = some k → ∀ y ∈ l₁, summary_key y ≠ some k) := by
  refine ⟨dedup_summaries_sublist xs [], List.mergeSort_perm _ _, ?_⟩
  rw [dedup, mem_dedup_summaries]
  constructor
  · rintro ⟨l₁, l₂, h, hc⟩
    exact ⟨l₁, l₂, h, fun k hk => (hc k hk).2⟩
  · rintro ⟨l₁, l₂, h, hc⟩
    exact ⟨l₁, l₂, h, fun k hk => ⟨by simp, hc k hk⟩⟩

/-- C8 witness: the first-seen duplicate `c8a` survives deduplication of
`[c8a, c8b]`. -/
theorem dedup_keeps_first_occurrence_witness :
    c8a ∈ dedup [c8a, c8b] :=
  (dedup_keeps_first_occurrence (some 3500000) [c8a, c8b] c8a).2.2.mpr
    ⟨[], [c8b], rfl, fun _ _ y hy => absurd hy (List.not_mem_nil y)⟩

end Ingestion

end SherlockHomes
